import Mathlib

/-!
Verification development for the flight tracker ingestion pipeline
(src/app.py).  The Python code is shallowly embedded: JSON-ish values
from the provider become an inductive `Value` type, Python floats are
carried as rationals, the pydantic `FlightState` model becomes a Lean
structure with `Option` fields, and the SQLAlchemy tables become lists
of row structures threaded through explicit state.
-/

namespace FlightTracker

/-- One entry of a provider state vector: a JSON-ish Python value.
Floats are modelled as rationals (no claim depends on binary rounding). -/
inductive Value where
  | null : Value
  | str : String → Value
  | int : Int → Value
  | float : Rat → Value
  | bool : Bool → Value
deriving Repr, DecidableEq

/-- Python truthiness: None, empty string, 0, 0.0 and False are falsy. -/
def truthy : Value → Bool
  | .null => false
  | .str s => decide (s ≠ "")
  | .int n => decide (n ≠ 0)
  | .float q => decide (q ≠ 0)
  | .bool b => b

/-- The exception kinds `normalize_opensky_state` can raise: IndexError
from positional access past the end of the list, AttributeError from
calling strip on a non-string, and pydantic ValidationError from the
`FlightState(...)` construction.  All of them propagate out of the
function (the except clause re-raises), so together they play the role
the spec calls MalformedRecordError. -/
inductive PyError where
  | indexError : PyError
  | attributeError : PyError
  | validationError : PyError
deriving Repr, DecidableEq

/-- Positional access `state[i]`: IndexError when out of range. -/
def getIdx (l : List Value) (i : Nat) : Except PyError Value :=
  match l.get? i with
  | some v => .ok v
  | none => .error .indexError

/-- The pydantic model FlightState (src/app.py lines 103-116).
`icao24` and `source` are required, everything else optional;
`flight_number` and `country_name` default to None. -/
structure FlightState where
  icao24 : String
  callsign : Option String
  origin_country : Option String
  lat : Option Rat
  lon : Option Rat
  altitude : Option Rat
  velocity : Option Rat
  heading : Option Rat
  vertical_rate : Option Rat
  last_seen : Option Int
  source : String
  flight_number : Option String := none
  country_name : Option String := none
deriving Repr, DecidableEq

/-- pydantic v1 validation of a required `str` field: None is rejected,
strings pass through, ints are coerced via str().  (Coercion of floats,
bytes and Decimals to str is not modelled; no claim exercises it.) -/
def validateReqStr : Value → Except PyError String
  | .str s => .ok s
  | .int n => .ok (toString n)
  | _ => .error .validationError

/-- pydantic v1 validation of an `Optional[str]` field. -/
def validateOptStr : Value → Except PyError (Option String)
  | .null => .ok none
  | .str s => .ok (some s)
  | .int n => .ok (some (toString n))
  | _ => .error .validationError

/-- pydantic v1 validation of an `Optional[float]` field: None passes,
ints and bools coerce to float.  (Numeric-string coercion is not
modelled; no claim exercises it.) -/
def validateOptFloat : Value → Except PyError (Option Rat)
  | .null => .ok none
  | .float q => .ok (some q)
  | .int n => .ok (some (n : Rat))
  | .bool b => .ok (some (if b then 1 else 0))
  | _ => .error .validationError

/-- pydantic v1 validation of an `Optional[int]` field: None passes,
floats are truncated toward zero as Python int() does.  (Numeric-string
coercion is not modelled; no claim exercises it.) -/
def validateOptInt : Value → Except PyError (Option Int)
  | .null => .ok none
  | .int n => .ok (some n)
  | .float q => .ok (some (Int.tdiv q.num (q.den : Int)))
  | .bool b => .ok (some (if b then 1 else 0))
  | _ => .error .validationError

/-- Python str.strip() with no argument: drop whitespace from both
ends.  (Python also strips a few exotic whitespace characters beyond
space, tab, carriage return and newline; no claim exercises them.) -/
def pyStrip (s : String) : String :=
  ⟨((s.data.dropWhile Char.isWhitespace).reverse.dropWhile
      Char.isWhitespace).reverse⟩

/-- Line 124: `callsign = state[1].strip() if state[1] else None`.
A falsy entry (None, empty string, 0, ...) gives None; a truthy entry
must be a string (otherwise .strip() raises AttributeError) and is
trimmed of surrounding whitespace. -/
def pyCallsign (v : Value) : Except PyError (Option String) :=
  if truthy v then
    match v with
    | .str s => .ok (some (pyStrip s))
    | _ => .error .attributeError
  else
    .ok none

/-- The Python expression `a or b` where `a` is already read and `b` is
a positional read: when `a` is truthy the second operand is never
evaluated (short-circuit), so its potential IndexError never fires. -/
def coalesce (primary : Value) (secondary : Except PyError Value) :
    Except PyError Value :=
  if truthy primary then .ok primary else secondary

/-- Embedding of `normalize_opensky_state` (src/app.py lines 120-149):
positional reads in source order (lines 123-132, with the Python `or`
of lines 126 and 129 short-circuiting, so the secondary index is only
read when the primary value is falsy), then the pydantic construction
of FlightState (lines 133-145).  Any raised exception is re-raised by
the except clause, so the result is `Except PyError FlightState`. -/
def normalize_opensky_state (state : List Value) (source : String) :
    Except PyError FlightState := do
  let v0 ← getIdx state 0
  let v1 ← getIdx state 1
  let callsign ← pyCallsign v1
  let v2 ← getIdx state 2
  let v3 ← getIdx state 3
  let time_position ← coalesce v3 (getIdx state 4)
  let v5 ← getIdx state 5
  let v6 ← getIdx state 6
  let v7 ← getIdx state 7
  let altv ← coalesce v7 (getIdx state 13)
  let v9 ← getIdx state 9
  let v10 ← getIdx state 10
  let v11 ← getIdx state 11
  let icao24 ← validateReqStr v0
  let origin_country ← validateOptStr v2
  let lat ← validateOptFloat v6
  let lon ← validateOptFloat v5
  let altitude ← validateOptFloat altv
  let velocity ← validateOptFloat v9
  let heading ← validateOptFloat v10
  let vertical_rate ← validateOptFloat v11
  let last_seen ← validateOptInt time_position
  pure { icao24 := icao24, callsign := callsign,
         origin_country := origin_country, lat := lat, lon := lon,
         altitude := altitude, velocity := velocity, heading := heading,
         vertical_rate := vertical_rate, last_seen := last_seen,
         source := source }

/-- Python `a or b` once both operands are known: the first truthy one. -/
def pyOr (a b : Value) : Value :=
  if truthy a then a else b

/-- A row of the flights_current table (src/app.py lines 68-83).
Freshly generated uuid primary keys are modelled by naturals drawn from
a counter in the store state.  The source column is written on every
insert and update, so it is kept as a plain string; flight_number and
country_name are nullable and never written by upsert_current. -/
structure CurrentRow where
  id : Nat
  icao24 : String
  callsign : Option String
  flight_number : Option String
  origin_country : Option String
  lat : Option Rat
  lon : Option Rat
  altitude : Option Rat
  velocity : Option Rat
  heading : Option Rat
  vertical_rate : Option Rat
  last_seen : Option Int
  source : String
  country_name : Option String
deriving Repr, DecidableEq

/-- A row of the flights_history table (src/app.py lines 85-94). -/
structure HistoryRow where
  id : Nat
  icao24 : String
  timestamp : Int
  lat : Option Rat
  lon : Option Rat
  altitude : Option Rat
  velocity : Option Rat
  source : String
deriving Repr, DecidableEq

/-- The durable store: both tables plus the fresh-id counter that
stands in for uuid4 generation. -/
structure DB where
  current : List CurrentRow
  history : List HistoryRow
  nextId : Nat
deriving Repr, DecidableEq

/-- The insert branch of upsert_current (src/app.py lines 171-184):
a new FlightsCurrent row built from the FlightState; flight_number and
country_name are not passed, so they take the column default NULL. -/
def mkCurrentRow (fs : FlightState) (fresh : Nat) : CurrentRow :=
  { id := fresh, icao24 := fs.icao24, callsign := fs.callsign,
    flight_number := none, origin_country := fs.origin_country,
    lat := fs.lat, lon := fs.lon, altitude := fs.altitude,
    velocity := fs.velocity, heading := fs.heading,
    vertical_rate := fs.vertical_rate, last_seen := fs.last_seen,
    source := fs.source, country_name := none }

/-- The update branch of upsert_current (src/app.py lines 160-169):
exactly the ten listed fields are overwritten on the found row; id,
icao24, flight_number and country_name are untouched. -/
def updateRow (r : CurrentRow) (fs : FlightState) : CurrentRow :=
  { r with
    callsign := fs.callsign
    origin_country := fs.origin_country
    lat := fs.lat
    lon := fs.lon
    altitude := fs.altitude
    velocity := fs.velocity
    heading := fs.heading
    vertical_rate := fs.vertical_rate
    last_seen := fs.last_seen
    source := fs.source }

/-- Effect of upsert_current on the flights_current table: the query
`filter_by(icao24=...).first()` finds the first row with a matching
icao24 and that row is updated in place; when no row matches, a new row
with a fresh id is inserted (src/app.py lines 158-184).  Returns the
new table and the next unused id. -/
def upsertList : List CurrentRow → FlightState → Nat → List CurrentRow × Nat
  | [], fs, fresh => ([mkCurrentRow fs fresh], fresh + 1)
  | r :: rs, fs, fresh =>
    if r.icao24 == fs.icao24 then
      (updateRow r fs :: rs, fresh)
    else
      (r :: (upsertList rs fs fresh).1, (upsertList rs fs fresh).2)

/-- The history row staged by upsert_current (src/app.py lines 186-194);
the timestamp column records the wall-clock write time int(time.time()),
passed in here as `now`. -/
def mkHistoryRow (fs : FlightState) (now : Int) (fresh : Nat) : HistoryRow :=
  { id := fresh, icao24 := fs.icao24, timestamp := now, lat := fs.lat,
    lon := fs.lon, altitude := fs.altitude, velocity := fs.velocity,
    source := fs.source }

/-- The combined effect of one successful upsert_current call on the
store: the current-table upsert and the history append, both staged in
the same session and applied by the single commit on line 196. -/
def applyUpsert (db : DB) (fs : FlightState) (now : Int) : DB :=
  { current := (upsertList db.current fs db.nextId).1,
    history := db.history ++ [mkHistoryRow fs now (upsertList db.current fs db.nextId).2],
    nextId := (upsertList db.current fs db.nextId).2 + 1 }

/-- A store write can fail; the only failure point with an observable
effect is the commit. -/
inductive StoreError where
  | commitFailed : StoreError
deriving Repr, DecidableEq

/-- Embedding of upsert_current (src/app.py lines 156-196): all changes
for the record are staged on the session and the single session.commit()
at the end either applies them all or raises, in which case no staged
change reaches the store.  The commitOk flag models whether the commit
succeeds. -/
def upsert_current (db : DB) (fs : FlightState) (now : Int) (commitOk : Bool) :
    Except StoreError DB :=
  if commitOk then .ok (applyUpsert db fs now) else .error .commitFailed

/-- Observable outcome of one snapshot pass of collector_opensky:
the store after the loop, the payloads handed to the redis publish task
in order, and how many per-record errors were printed. -/
structure LoopState where
  db : DB
  published : List FlightState
  errors : Nat
deriving Repr, DecidableEq

/-- The per-record body of the collector loop (src/app.py lines 220-229):
normalize; on success create the publish task and then run the store
upsert; any exception from normalize or from the store is caught by the
per-record except clause, printed, and the loop continues with the next
record.  A store failure leaves the store as it was, but the publish
task was already created.  The commit oracle says whether the store
commit for a given record succeeds. -/
def collectStep (commit : List Value → Bool) (now : Int)
    (st : LoopState) (s : List Value) : LoopState :=
  match normalize_opensky_state s "opensky" with
  | .error _ => { st with errors := st.errors + 1 }
  | .ok fs =>
    match upsert_current st.db fs now (commit s) with
    | .ok db2 =>
      { db := db2, published := st.published ++ [fs], errors := st.errors }
    | .error _ =>
      { db := st.db, published := st.published ++ [fs],
        errors := st.errors + 1 }

/-- One full snapshot pass of collector_opensky (src/app.py lines
216-230): fold the per-record body over the list of states. -/
def collector_cycle (commit : List Value → Bool) (db : DB) (now : Int)
    (snapshot : List (List Value)) : LoopState :=
  snapshot.foldl (collectStep commit now) ⟨db, [], 0⟩

/-- Records of a snapshot that normalize successfully, in order. -/
def normSnap (snapshot : List (List Value)) : List FlightState :=
  snapshot.filterMap fun s => (normalize_opensky_state s "opensky").toOption

/-- The normalized state of a record that is actually stored: present
exactly when normalization succeeds and the commit for it succeeds. -/
def storedOf (commit : List Value → Bool) (s : List Value) : Option FlightState :=
  match normalize_opensky_state s "opensky" with
  | .ok fs => if commit s then some fs else none
  | .error _ => none

/-- Whether processing a record logs a skipped-record error: yes when
normalization fails, or when it succeeds but the store commit fails. -/
def isSkipped (commit : List Value → Bool) (s : List Value) : Bool :=
  match normalize_opensky_state s "opensky" with
  | .ok _ => !commit s
  | .error _ => true

/-- Number of flights_current rows for a given icao24. -/
def countCur (db : DB) (a : String) : Nat :=
  (db.current.filter fun r => r.icao24 == a).length

/-- Number of flights_history rows for a given icao24. -/
def countHist (db : DB) (a : String) : Nat :=
  (db.history.filter fun r => r.icao24 == a).length

/-- The invariant: at most one current-state row per aircraft id. -/
def atMostOne (db : DB) : Prop :=
  ∀ a : String, countCur db a ≤ 1

/-- A sequence of successful combined store calls, each a FlightState
with the wall-clock time of its write. -/
def applyMany (db : DB) (calls : List (FlightState × Int)) : DB :=
  calls.foldl (fun d c => applyUpsert d c.1 c.2) db

/-- Whether a computation that can raise returned normally. -/
def succeeds {α : Type} : Except PyError α → Bool
  | .ok _ => true
  | .error _ => false

theorem bindOk {α β : Type} {x : Except PyError α} {f : α → Except PyError β}
    {b : β} : x >>= f = Except.ok b ↔ ∃ a, x = Except.ok a ∧ f a = Except.ok b := by
  cases x <;> simp [Bind.bind, Except.bind]

theorem pureOk {α : Type} {a b : α} :
    (pure a : Except PyError α) = Except.ok b ↔ a = b := by
  simp [pure, Except.pure]

/-- Inversion for a successful normalization: the positional reads that
determine the identity, the callsign, and the two coalesced fields all
returned, and the corresponding stages of the pipeline produced exactly
the fields of the result. -/
theorem normalize_ok_strong {state : List Value} {src : String}
    {fs : FlightState} (h : normalize_opensky_state state src = Except.ok fs) :
    fs.source = src ∧ fs.flight_number = none ∧ fs.country_name = none ∧
    ∃ v0 v1 v3 tp v7 av,
      getIdx state 0 = Except.ok v0 ∧
      validateReqStr v0 = Except.ok fs.icao24 ∧
      getIdx state 1 = Except.ok v1 ∧
      pyCallsign v1 = Except.ok fs.callsign ∧
      getIdx state 3 = Except.ok v3 ∧
      (truthy v3 = true → tp = v3) ∧
      (truthy v3 = false → getIdx state 4 = Except.ok tp) ∧
      validateOptInt tp = Except.ok fs.last_seen ∧
      getIdx state 7 = Except.ok v7 ∧
      (truthy v7 = true → av = v7) ∧
      (truthy v7 = false → getIdx state 13 = Except.ok av) ∧
      validateOptFloat av = Except.ok fs.altitude := by
  unfold normalize_opensky_state at h
  simp only [bindOk, pureOk] at h
  obtain ⟨v0, h0, v1, h1, cs, hcs, v2, h2, v3, h3, tp, htp, v5, h5, v6, h6,
    v7, h7, av, hav, v9, h9, v10, h10, v11, h11, ic, hic, oc, hoc, la, hla,
    lo, hlo, al, hal, ve, hve, hd, hhd, vr, hvr, ls, hls, hfin⟩ := h
  subst hfin
  refine ⟨rfl, rfl, rfl, v0, v1, v3, tp, v7, av, h0, hic, h1, hcs, h3,
    ?_, ?_, hls, h7, ?_, ?_, hal⟩
  · intro ht
    unfold coalesce at htp
    rw [ht] at htp
    simp only [if_pos rfl] at htp
    exact (Except.ok.inj htp).symm
  · intro ht
    unfold coalesce at htp
    rw [ht] at htp
    simpa using htp
  · intro ht
    unfold coalesce at hav
    rw [ht] at hav
    simp only [if_pos rfl] at hav
    exact (Except.ok.inj hav).symm
  · intro ht
    unfold coalesce at hav
    rw [ht] at hav
    simpa using hav

theorem getIdx_cons_succ (v : Value) (l : List Value) (i : Nat) :
    getIdx (v :: l) (i + 1) = getIdx l i := rfl

theorem getIdx_all_null {l : List Value} (hnull : ∀ v ∈ l, v = Value.null)
    {i : Nat} (hi : i < l.length) : getIdx l i = Except.ok Value.null := by
  unfold getIdx
  rw [List.get?_eq_get hi, hnull _ (List.get_mem l i hi)]

/-- A record whose identity entry is any string and whose thirteen
following entries are all null normalizes successfully, every optional
field resolving to none. -/
theorem normalize_all_null (s : String) (rest : List Value) (src : String)
    (hlen : 13 ≤ rest.length) (hnull : ∀ v ∈ rest, v = Value.null) :
    normalize_opensky_state (Value.str s :: rest) src =
      Except.ok { icao24 := s, callsign := none, origin_country := none,
                  lat := none, lon := none, altitude := none,
                  velocity := none, heading := none, vertical_rate := none,
                  last_seen := none, source := src } := by
  have g : ∀ i : Nat, i < rest.length → getIdx rest i = Except.ok Value.null :=
    fun i hi => getIdx_all_null hnull hi
  have e0 : getIdx (Value.str s :: rest) 0 = Except.ok (Value.str s) := rfl
  have e1 : getIdx (Value.str s :: rest) 1 = Except.ok Value.null :=
    g 0 (by omega)
  have e2 : getIdx (Value.str s :: rest) 2 = Except.ok Value.null :=
    g 1 (by omega)
  have e3 : getIdx (Value.str s :: rest) 3 = Except.ok Value.null :=
    g 2 (by omega)
  have e4 : getIdx (Value.str s :: rest) 4 = Except.ok Value.null :=
    g 3 (by omega)
  have e5 : getIdx (Value.str s :: rest) 5 = Except.ok Value.null :=
    g 4 (by omega)
  have e6 : getIdx (Value.str s :: rest) 6 = Except.ok Value.null :=
    g 5 (by omega)
  have e7 : getIdx (Value.str s :: rest) 7 = Except.ok Value.null :=
    g 6 (by omega)
  have e9 : getIdx (Value.str s :: rest) 9 = Except.ok Value.null :=
    g 8 (by omega)
  have e10 : getIdx (Value.str s :: rest) 10 = Except.ok Value.null :=
    g 9 (by omega)
  have e11 : getIdx (Value.str s :: rest) 11 = Except.ok Value.null :=
    g 10 (by omega)
  have e13 : getIdx (Value.str s :: rest) 13 = Except.ok Value.null :=
    g 12 (by omega)
  unfold normalize_opensky_state
  simp [e0, e1, e2, e3, e4, e5, e6, e7, e9, e10, e11, e13, coalesce, truthy,
    pyCallsign, validateReqStr, validateOptStr, validateOptFloat,
    validateOptInt, Bind.bind, Except.bind, pure, Except.pure]

theorem updateRow_icao24 (r : CurrentRow) (fs : FlightState) :
    (updateRow r fs).icao24 = r.icao24 := rfl

theorem updateRow_idem (r : CurrentRow) (fs : FlightState) :
    updateRow (updateRow r fs) fs = updateRow r fs := rfl

theorem updateRow_mkCurrentRow (fs : FlightState) (n : Nat) :
    updateRow (mkCurrentRow fs n) fs = mkCurrentRow fs n := rfl

/-- A second upsert of the same FlightState finds the row the first one
wrote and overwrites it with the same values: the table is unchanged. -/
theorem upsertList_fst_idem (l : List CurrentRow) (fs : FlightState)
    (f f' : Nat) :
    (upsertList (upsertList l fs f).1 fs f').1 = (upsertList l fs f).1 := by
  induction l with
  | nil =>
    simp [upsertList, updateRow, mkCurrentRow]
  | cons r rs ih =>
    by_cases hm : r.icao24 == fs.icao24
    · simp [upsertList, hm, updateRow_icao24, updateRow_idem]
    · simp [upsertList, hm, updateRow_icao24, ih]

/-- After an upsert, the table holds a row whose identity and mutable
fields come from the FlightState (either the updated found row or the
freshly inserted one). -/
theorem upsertList_exists_row (l : List CurrentRow) (fs : FlightState)
    (f : Nat) :
    ∃ r ∈ (upsertList l fs f).1, r.icao24 = fs.icao24 ∧
      r.callsign = fs.callsign ∧ r.origin_country = fs.origin_country ∧
      r.lat = fs.lat ∧ r.lon = fs.lon ∧ r.altitude = fs.altitude ∧
      r.velocity = fs.velocity ∧ r.heading = fs.heading ∧
      r.vertical_rate = fs.vertical_rate ∧ r.last_seen = fs.last_seen ∧
      r.source = fs.source := by
  induction l with
  | nil =>
    refine ⟨mkCurrentRow fs f, by simp [upsertList], ?_⟩
    simp [mkCurrentRow]
  | cons r rs ih =>
    by_cases hm : r.icao24 == fs.icao24
    · exact ⟨updateRow r fs, by simp [upsertList, hm], by simpa using hm,
        rfl, rfl, rfl, rfl, rfl, rfl, rfl, rfl, rfl, rfl⟩
    · obtain ⟨r', hmem, hprops⟩ := ih
      exact ⟨r', by simp [upsertList, hm, hmem], hprops⟩

/-- Decomposition of the update path: when the first matching row is r,
the upsert replaces exactly that occurrence by updateRow r fs, keeps
every other row, and consumes no fresh id. -/
theorem upsertList_update_frame (l : List CurrentRow) (fs : FlightState)
    (f : Nat) (r : CurrentRow)
    (h : l.find? (fun x => x.icao24 == fs.icao24) = some r) :
    ∃ pre post, l = pre ++ r :: post ∧
      (upsertList l fs f).1 = pre ++ updateRow r fs :: post ∧
      (upsertList l fs f).2 = f := by
  induction l with
  | nil => simp at h
  | cons r0 rs ih =>
    by_cases hm : r0.icao24 == fs.icao24
    · have hf : List.find? (fun x => x.icao24 == fs.icao24) (r0 :: rs) =
          some r0 := List.find?_cons_of_pos rs hm
      rw [hf] at h
      obtain rfl : r0 = r := by injection h
      exact ⟨[], rs, rfl, by simp [upsertList, hm], by simp [upsertList, hm]⟩
    · have hf : List.find? (fun x => x.icao24 == fs.icao24) (r0 :: rs) =
          List.find? (fun x => x.icao24 == fs.icao24) rs :=
        List.find?_cons_of_neg rs (by simpa using hm)
      rw [hf] at h
      obtain ⟨pre, post, hsplit, hfst, hsnd⟩ := ih h
      refine ⟨r0 :: pre, post, by simp [hsplit], ?_, ?_⟩
      · simp [upsertList, hm, hfst]
      · simp [upsertList, hm, hsnd]

theorem filter_upsertList_self (l : List CurrentRow) (fs : FlightState)
    (f : Nat) :
    ((upsertList l fs f).1.filter fun r => r.icao24 == fs.icao24).length =
      max (l.filter fun r => r.icao24 == fs.icao24).length 1 := by
  induction l with
  | nil => simp [upsertList, mkCurrentRow]
  | cons r rs ih =>
    by_cases hm : r.icao24 == fs.icao24
    · simp only [upsertList, if_pos hm, List.filter_cons, updateRow_icao24,
        hm, if_pos, List.length_cons]
      omega
    · have hm' : (r.icao24 == fs.icao24) = false := by simpa using hm
      simp [upsertList, hm', ih]

theorem filter_upsertList_other (l : List CurrentRow) (fs : FlightState)
    (f : Nat) {b : String} (hb : fs.icao24 ≠ b) :
    (upsertList l fs f).1.filter (fun r => r.icao24 == b) =
      l.filter fun r => r.icao24 == b := by
  have hbf : (fs.icao24 == b) = false := beq_eq_false_iff_ne.mpr hb
  induction l with
  | nil => simp [upsertList, mkCurrentRow, hbf]
  | cons r rs ih =>
    by_cases hm : r.icao24 == fs.icao24
    · have hr : r.icao24 = fs.icao24 := eq_of_beq hm
      simp [upsertList, hm, updateRow_icao24, List.filter_cons, hr, hbf]
    · have hm' : (r.icao24 == fs.icao24) = false := by simpa using hm
      simp [upsertList, hm', List.filter_cons, ih]

theorem countCur_applyUpsert_self (db : DB) (fs : FlightState) (now : Int) :
    countCur (applyUpsert db fs now) fs.icao24 =
      max (countCur db fs.icao24) 1 := by
  unfold countCur applyUpsert
  exact filter_upsertList_self db.current fs db.nextId

theorem countCur_applyUpsert_other (db : DB) (fs : FlightState) (now : Int)
    {b : String} (hb : b ≠ fs.icao24) :
    countCur (applyUpsert db fs now) b = countCur db b := by
  unfold countCur applyUpsert
  rw [filter_upsertList_other db.current fs db.nextId (Ne.symm hb)]

theorem countHist_applyUpsert (db : DB) (fs : FlightState) (now : Int)
    (a : String) :
    countHist (applyUpsert db fs now) a =
      countHist db a + if fs.icao24 == a then 1 else 0 := by
  unfold countHist applyUpsert
  by_cases h : fs.icao24 == a <;>
    simp [List.filter_append, List.filter_cons, mkHistoryRow, h]

theorem atMostOne_applyUpsert (db : DB) (fs : FlightState) (now : Int)
    (h : atMostOne db) : atMostOne (applyUpsert db fs now) := by
  intro a
  by_cases hb : a = fs.icao24
  · subst hb
    rw [countCur_applyUpsert_self]
    have h2 := h fs.icao24
    omega
  · rw [countCur_applyUpsert_other db fs now hb]
    exact h a

theorem applyMany_cons (db : DB) (c : FlightState × Int)
    (cs : List (FlightState × Int)) :
    applyMany db (c :: cs) = applyMany (applyUpsert db c.1 c.2) cs := rfl

theorem countHist_applyMany (db : DB) (a : String)
    (calls : List (FlightState × Int))
    (hall : ∀ c ∈ calls, c.1.icao24 = a) :
    countHist (applyMany db calls) a = countHist db a + calls.length := by
  induction calls generalizing db with
  | nil => simp [applyMany]
  | cons c cs ih =>
    rw [applyMany_cons, ih _ fun x hx => hall x (List.mem_cons_of_mem _ hx)]
    rw [countHist_applyUpsert]
    have hc : c.1.icao24 = a := hall c (List.mem_cons_self _ _)
    simp only [hc, beq_self_eq_true, if_pos, List.length_cons]
    omega

theorem countCur_applyMany (db : DB) (a : String)
    (calls : List (FlightState × Int))
    (hall : ∀ c ∈ calls, c.1.icao24 = a) (hne : calls ≠ []) :
    countCur (applyMany db calls) a = max (countCur db a) 1 := by
  induction calls generalizing db with
  | nil => exact absurd rfl hne
  | cons c cs ih =>
    have hc : c.1.icao24 = a := hall c (List.mem_cons_self _ _)
    rcases cs with _ | ⟨c', cs'⟩
    · rw [applyMany_cons]
      show countCur (applyUpsert db c.1 c.2) a = _
      rw [← hc, countCur_applyUpsert_self]
    · rw [applyMany_cons,
        ih (applyUpsert db c.1 c.2)
          (fun x hx => hall x (List.mem_cons_of_mem _ hx)) (by simp)]
      rw [← hc, countCur_applyUpsert_self, Nat.max_assoc, Nat.max_self]

theorem atMostOne_applyMany (db : DB) (calls : List (FlightState × Int))
    (h : atMostOne db) : atMostOne (applyMany db calls) := by
  induction calls generalizing db with
  | nil => exact h
  | cons c cs ih => exact ih _ (atMostOne_applyUpsert _ _ _ h)

/-- Full characterization of one snapshot pass from an arbitrary loop
state: the published payloads are exactly the normalizable records in
order, each record that fails to normalize or to commit logs exactly
one error, and the store is the fold of the successful combined writes
over the starting store. -/
theorem collector_fold_spec (commit : List Value → Bool) (now : Int)
    (snapshot : List (List Value)) :
    ∀ st : LoopState,
      snapshot.foldl (collectStep commit now) st =
        ⟨(snapshot.filterMap (storedOf commit)).foldl
            (fun d fs => applyUpsert d fs now) st.db,
          st.published ++ normSnap snapshot,
          st.errors + snapshot.countP (isSkipped commit)⟩ := by
  induction snapshot with
  | nil => intro st; simp [normSnap]
  | cons s rest ih =>
    intro st
    rw [List.foldl_cons, ih]
    cases hn : normalize_opensky_state s "opensky" with
    | error e =>
      simp [collectStep, hn, normSnap, storedOf, isSkipped,
        Except.toOption, List.countP_cons, LoopState.mk.injEq,
        List.append_assoc]
      all_goals omega
    | ok fs =>
      by_cases hc : commit s
      · simp [collectStep, hn, hc, upsert_current, normSnap, storedOf,
          isSkipped, Except.toOption, List.countP_cons, LoopState.mk.injEq,
          List.append_assoc]
      · have hc' : commit s = false := by simpa using hc
        simp [collectStep, hn, hc', upsert_current, normSnap, storedOf,
          isSkipped, Except.toOption, List.countP_cons, LoopState.mk.injEq,
          List.append_assoc]
        all_goals omega

/-! Concrete fixtures used by the counterexamples and witnesses. -/

/-- Thirteen null entries: the optional tail of a minimal record. -/
def nulls13 : List Value := List.replicate 13 Value.null

/-- The empty store. -/
def dbEmpty : DB := { current := [], history := [], nextId := 0 }

/-- The CanonicalState produced from a record with identity abc and all
other fields null. -/
def fsPlain : FlightState :=
  { icao24 := "abc", callsign := none, origin_country := none, lat := none,
    lon := none, altitude := none, velocity := none, heading := none,
    vertical_rate := none, last_seen := none, source := "opensky" }

/-- A fully populated CanonicalState. -/
def fsA : FlightState :=
  { icao24 := "abc123", callsign := some "UAL123",
    origin_country := some "United States", lat := some (75 / 2),
    lon := some (-611 / 5), altitude := some 1000, velocity := some 250,
    heading := some 90, vertical_rate := some 0,
    last_seen := some 1700000000, source := "opensky" }

/-- A later CanonicalState for the same aircraft that also carries
flight_number and country_name values, as a richer provider would. -/
def fsB : FlightState :=
  { icao24 := "abc123", callsign := some "UAL124",
    origin_country := some "France", lat := none, lon := none,
    altitude := none, velocity := none, heading := none,
    vertical_rate := none, last_seen := some 1700000100,
    source := "flightaware", flight_number := some "UA100",
    country_name := some "France" }

/-- An existing current-state row for aircraft abc123. -/
def rowA : CurrentRow := mkCurrentRow fsA 0

/-- A store already holding one sighting of abc123. -/
def dbA : DB := { current := [rowA], history := [mkHistoryRow fsA 50 1], nextId := 2 }

/-- A well-formed record with the given identity and a null tail. -/
def goodRecord (s : String) : List Value := Value.str s :: nulls13

/-- A ten-record snapshot whose fifth record is malformed (empty). -/
def snapshot10 : List (List Value) :=
  [goodRecord "a01", goodRecord "a02", goodRecord "a03", goodRecord "a04",
   [], goodRecord "a06", goodRecord "a07", goodRecord "a08",
   goodRecord "a09", goodRecord "a10"]

/-! The claims. -/

/-- C1 counterexample: the one-entry record with identity abc has a
present, non-empty identity string at position 0, yet
normalize_opensky_state raises an IndexError (reading position 1)
instead of returning a CanonicalState, so the claim as stated fails. -/
theorem C1_counterexample :
    ([Value.str "abc"].get? 0 = some (Value.str "abc")) ∧
    succeeds (normalize_opensky_state [Value.str "abc"] "opensky") = false :=
  ⟨rfl, rfl⟩

/-- C1 (amended): for every record whose identity entry is a present,
non-empty string and on which normalize_opensky_state returns normally,
the aircraft_id of the result equals that identity string and its
source equals the source tag passed to the call. -/
theorem C1_identity_and_source (state : List Value) (src s : String)
    (fs : FlightState) (hid : state.get? 0 = some (Value.str s))
    (_hs : s ≠ "") (h : normalize_opensky_state state src = Except.ok fs) :
    fs.icao24 = s ∧ fs.source = src := by
  obtain ⟨hsrc, -, -, v0, v1, v3, tp, v7, av, h0, hic, -⟩ :=
    normalize_ok_strong h
  have h0' : getIdx state 0 = Except.ok (Value.str s) := by
    unfold getIdx
    rw [hid]
  have hv0 : v0 = Value.str s := Except.ok.inj (h0.symm.trans h0')
  subst hv0
  have : s = fs.icao24 := Except.ok.inj hic
  exact ⟨this.symm, hsrc⟩

/-- C1 witness at a concrete record. -/
theorem C1_identity_and_source_witness :
    fsPlain.icao24 = "abc" ∧ fsPlain.source = "opensky" :=
  C1_identity_and_source (Value.str "abc" :: nulls13) "opensky" "abc"
    fsPlain rfl (by decide) rfl

/-- C2 counterexample: a record whose identity entry is the empty
string is not rejected: normalization succeeds and returns a
CanonicalState whose aircraft_id is the empty string, contradicting the
claim that such a record fails with MalformedRecordError. -/
theorem C2_counterexample :
    ((Value.str "" :: nulls13).get? 0 = some (Value.str "")) ∧
    normalize_opensky_state (Value.str "" :: nulls13) "opensky" =
      Except.ok { fsPlain with icao24 := "" } :=
  ⟨rfl, rfl⟩

/-- C2 (amended): a record whose identity entry is absent or null does
fail normalization and produces no CanonicalState; only the
empty-string identity slips through. -/
theorem C2_missing_identity_fails (state : List Value) (src : String)
    (h : state.get? 0 = none ∨ state.get? 0 = some Value.null) :
    succeeds (normalize_opensky_state state src) = false := by
  cases hres : normalize_opensky_state state src with
  | error e => rfl
  | ok fs =>
    exfalso
    obtain ⟨-, -, -, v0, v1, v3, tp, v7, av, h0, hic, -⟩ :=
      normalize_ok_strong hres
    unfold getIdx at h0
    rcases h with h | h
    · rw [h] at h0
      simp at h0
    · rw [h] at h0
      simp at h0
      subst h0
      simp [validateReqStr] at hic

/-- C2 witness: the empty record has no identity entry and fails. -/
theorem C2_missing_identity_fails_witness :
    succeeds (normalize_opensky_state [] "opensky") = false :=
  C2_missing_identity_fails [] "opensky" (Or.inl rfl)

/-- C3 counterexample: with a non-null primary timestamp 0 and a
secondary timestamp 2000, the code takes the secondary value (Python or
passes over every falsy value, zero included), so last_seen is 2000
where the claim requires the primary 0. -/
theorem C3_counterexample :
    (([Value.str "abc", Value.null, Value.null, Value.int 0,
        Value.int 2000] ++ List.replicate 9 Value.null).get? 3 =
      some (Value.int 0)) ∧
    normalize_opensky_state ([Value.str "abc", Value.null, Value.null,
        Value.int 0, Value.int 2000] ++ List.replicate 9 Value.null)
        "opensky" =
      Except.ok { fsPlain with last_seen := some 2000 } :=
  ⟨rfl, rfl⟩

/-- C3 (amended): the two candidate timestamp entries and the two
candidate altitude entries are coalesced by taking the first truthy
value in the fixed priority order: a null or zero primary is passed
over in favor of the secondary, and a truthy primary (such as 1000)
wins.  The coalesced value then goes through field validation into
last_seen and altitude respectively. -/
theorem C3_coalescing (state : List Value) (src : String)
    (fs : FlightState) (t3 t4 t7 t13 : Value)
    (h3 : state.get? 3 = some t3) (h4 : state.get? 4 = some t4)
    (h7 : state.get? 7 = some t7) (h13 : state.get? 13 = some t13)
    (h : normalize_opensky_state state src = Except.ok fs) :
    validateOptInt (pyOr t3 t4) = Except.ok fs.last_seen ∧
    validateOptFloat (pyOr t7 t13) = Except.ok fs.altitude := by
  obtain ⟨-, -, -, v0, v1, v3, tp, v7, av, -, -, -, -, hg3, htpT, htpF,
    hls, hg7, havT, havF, hal⟩ := normalize_ok_strong h
  have hv3 : v3 = t3 := by
    have : getIdx state 3 = Except.ok t3 := by
      unfold getIdx
      rw [h3]
    exact Except.ok.inj (hg3.symm.trans this)
  have hv7 : v7 = t7 := by
    have : getIdx state 7 = Except.ok t7 := by
      unfold getIdx
      rw [h7]
    exact Except.ok.inj (hg7.symm.trans this)
  subst hv3
  subst hv7
  constructor
  · cases ht : truthy v3 with
    | true =>
      rw [htpT ht] at hls
      rwa [pyOr, if_pos ht]
    | false =>
      have h4' : getIdx state 4 = Except.ok t4 := by
        unfold getIdx
        rw [h4]
      have : tp = t4 := Except.ok.inj ((htpF ht).symm.trans h4')
      rw [this] at hls
      rwa [pyOr, if_neg (by simp [ht])]
  · cases ht : truthy v7 with
    | true =>
      rw [havT ht] at hal
      rwa [pyOr, if_pos ht]
    | false =>
      have h13' : getIdx state 13 = Except.ok t13 := by
        unfold getIdx
        rw [h13]
      have : av = t13 := Except.ok.inj ((havF ht).symm.trans h13')
      rw [this] at hal
      rwa [pyOr, if_neg (by simp [ht])]

/-- C3 witness at the spec example: primary altitude null with
secondary 500 yields altitude 500, and primary timestamp 1000 with
secondary 2000 yields last_seen 1000. -/
theorem C3_coalescing_witness :
    validateOptInt (pyOr (Value.int 1000) (Value.int 2000)) =
      Except.ok (some 1000) ∧
    validateOptFloat (pyOr Value.null (Value.float 500)) =
      Except.ok (some 500) :=
  C3_coalescing
    [Value.str "abc", Value.null, Value.null, Value.int 1000,
      Value.int 2000, Value.null, Value.null, Value.null, Value.null,
      Value.null, Value.null, Value.null, Value.null, Value.float 500]
    "opensky"
    { fsPlain with altitude := some 500, last_seen := some 1000 }
    (Value.int 1000) (Value.int 2000) Value.null (Value.float 500)
    rfl rfl rfl rfl rfl

/-- C4: in one poll cycle every record that fails to normalize (or
whose store write fails) is logged and skipped while every other record
of the snapshot is still normalized, published and stored, and in the
ten-record snapshot whose fifth record is malformed the other nine are
all published and stored with exactly one error logged. -/
theorem C4_partial_failure_isolation (commit : List Value → Bool)
    (db : DB) (now : Int) (snapshot : List (List Value)) :
    ((collector_cycle commit db now snapshot).published =
        normSnap snapshot ∧
      (collector_cycle commit db now snapshot).errors =
        snapshot.countP (isSkipped commit) ∧
      (collector_cycle commit db now snapshot).db =
        (snapshot.filterMap (storedOf commit)).foldl
          (fun d fs => applyUpsert d fs now) db) ∧
    ((collector_cycle (fun _ => true) dbEmpty 100 snapshot10).errors = 1 ∧
      (collector_cycle (fun _ => true) dbEmpty 100 snapshot10).published.map
          (fun f => f.icao24) =
        ["a01", "a02", "a03", "a04", "a06", "a07", "a08", "a09", "a10"] ∧
      (collector_cycle (fun _ => true) dbEmpty 100
          snapshot10).db.current.length = 9 ∧
      (collector_cycle (fun _ => true) dbEmpty 100
          snapshot10).db.history.length = 9) := by
  constructor
  · rw [collector_cycle, collector_fold_spec]
    exact ⟨rfl, by simp, rfl⟩
  · exact ⟨by rfl, by rfl, by rfl, by rfl⟩

/-- C5 counterexample: a whitespace-only callsign is truthy, so it is
trimmed to the empty string and stored as the empty string, not as a
missing value, contradicting the claim. -/
theorem C5_counterexample :
    normalize_opensky_state
        (Value.str "abc" :: Value.str "   " :: List.replicate 12 Value.null)
        "opensky" =
      Except.ok { fsPlain with callsign := some "" } :=
  rfl

/-- C5 (amended): the normalized callsign is the input trimmed of
surrounding whitespace when the input is a truthy string; a null or
empty-string input normalizes to a missing value, but a whitespace-only
input trims to the empty string rather than to a missing value. -/
theorem C5_callsign_trim (state : List Value) (src : String)
    (fs : FlightState) (v1 : Value) (h1 : state.get? 1 = some v1)
    (h : normalize_opensky_state state src = Except.ok fs) :
    (v1 = Value.null → fs.callsign = none) ∧
    (v1 = Value.str "" → fs.callsign = none) ∧
    (∀ s : String, v1 = Value.str s → s ≠ "" →
      fs.callsign = some (pyStrip s)) := by
  obtain ⟨-, -, -, v0, v1x, v3, tp, v7, av, -, -, hg1, hcs, -⟩ :=
    normalize_ok_strong h
  have hv1 : v1x = v1 := by
    have h1' : getIdx state 1 = Except.ok v1 := by
      unfold getIdx
      rw [h1]
    exact Except.ok.inj (hg1.symm.trans h1')
  subst hv1
  refine ⟨?_, ?_, ?_⟩
  · intro hnull
    subst hnull
    simpa [pyCallsign, truthy] using hcs.symm
  · intro hempty
    subst hempty
    simpa [pyCallsign, truthy] using hcs.symm
  · intro s hstr hne
    subst hstr
    have ht : truthy (Value.str s) = true := by
      simp [truthy, hne]
    rw [pyCallsign, if_pos ht] at hcs
    simpa using hcs.symm

/-- C5 witness: a null callsign entry normalizes to a missing value. -/
theorem C5_callsign_trim_witness : fsPlain.callsign = none :=
  (C5_callsign_trim (Value.str "abc" :: nulls13) "opensky" fsPlain
    Value.null rfl rfl).1 rfl

/-- C6 counterexample: a record with a readable non-empty identity but
a positional array of length two fails normalization with an
IndexError instead of resolving the absent fields to missing values. -/
theorem C6_counterexample :
    ([Value.str "abcd", Value.null].get? 0 = some (Value.str "abcd")) ∧
    succeeds (normalize_opensky_state [Value.str "abcd", Value.null]
      "opensky") = false :=
  ⟨rfl, rfl⟩

/-- C6 (amended): null non-identity entries never fail normalization:
any record with a string identity and at least thirteen further
entries, all null, normalizes with every optional field resolving to a
missing value; but a record that is too short fails with IndexError
(the separate counterexample) and a truthy wrong-typed callsign entry
fails with AttributeError rather than resolving to a missing value. -/
theorem C6_defensive_fields (s : String) (rest : List Value)
    (src : String) (hlen : 13 ≤ rest.length)
    (hnull : ∀ v ∈ rest, v = Value.null) :
    (normalize_opensky_state (Value.str s :: rest) src =
      Except.ok { icao24 := s, callsign := none, origin_country := none,
                  lat := none, lon := none, altitude := none,
                  velocity := none, heading := none, vertical_rate := none,
                  last_seen := none, source := src }) ∧
    succeeds (normalize_opensky_state
      (Value.str "abcd" :: Value.int 7 :: List.replicate 12 Value.null)
      "opensky") = false :=
  ⟨normalize_all_null s rest src hlen hnull, rfl⟩

/-- C6 witness at a concrete all-null record. -/
theorem C6_defensive_fields_witness :
    normalize_opensky_state (Value.str "abc" :: nulls13) "opensky" =
      Except.ok fsPlain :=
  (C6_defensive_fields "abc" nulls13 "opensky" (by decide)
    (fun v hv => List.eq_of_mem_replicate hv)).1

/-- C7: one call of the combined store operation is a single unit of
work: when the commit succeeds the store gains exactly the one staged
history row and a current row carrying the mutable fields of the
CanonicalState, and when the commit fails the call returns an error and
no new store state is produced. -/
theorem C7_atomic_unit (db : DB) (fs : FlightState) (now : Int)
    (b : Bool) :
    (∀ db', upsert_current db fs now b = Except.ok db' →
      db'.history = db.history ++
        [mkHistoryRow fs now (upsertList db.current fs db.nextId).2] ∧
      countHist db' fs.icao24 = countHist db fs.icao24 + 1 ∧
      ∃ r ∈ db'.current, r.icao24 = fs.icao24 ∧
        r.callsign = fs.callsign ∧
        r.origin_country = fs.origin_country ∧ r.lat = fs.lat ∧
        r.lon = fs.lon ∧ r.altitude = fs.altitude ∧
        r.velocity = fs.velocity ∧ r.heading = fs.heading ∧
        r.vertical_rate = fs.vertical_rate ∧
        r.last_seen = fs.last_seen ∧ r.source = fs.source) ∧
    (b = false →
      upsert_current db fs now b = Except.error StoreError.commitFailed) := by
  constructor
  · intro db' h
    cases b with
    | false => simp [upsert_current] at h
    | true =>
      have hdb : applyUpsert db fs now = db' := by
        have h' : Except.ok (applyUpsert db fs now) = Except.ok db' := h
        exact Except.ok.inj h'
      subst hdb
      refine ⟨rfl, ?_, ?_⟩
      · rw [countHist_applyUpsert]
        simp
      · exact upsertList_exists_row db.current fs db.nextId
  · intro hb
    subst hb
    simp [upsert_current]

/-- C7 witness at a concrete successful call. -/
theorem C7_atomic_unit_witness :
    countHist (applyUpsert dbEmpty fsA 50) fsA.icao24 =
      countHist dbEmpty fsA.icao24 + 1 :=
  (((C7_atomic_unit dbEmpty fsA 50 true).1
    (applyUpsert dbEmpty fsA 50) rfl).2).1

/-- C8: starting from a store with no row for an aircraft, N successful
combined store calls for it leave exactly one current-state row and
exactly N history rows for it, and the at-most-one-current-row
invariant is preserved. -/
theorem C8_history_accumulation (db : DB) (a : String)
    (calls : List (FlightState × Int))
    (hall : ∀ c ∈ calls, c.1.icao24 = a) (hne : calls ≠ [])
    (hcur : countCur db a = 0) (hhist : countHist db a = 0)
    (hinv : atMostOne db) :
    countCur (applyMany db calls) a = 1 ∧
    countHist (applyMany db calls) a = calls.length ∧
    atMostOne (applyMany db calls) := by
  refine ⟨?_, ?_, atMostOne_applyMany db calls hinv⟩
  · rw [countCur_applyMany db a calls hall hne, hcur]
    simp
  · rw [countHist_applyMany db a calls hall, hhist]
    simp

/-- C8 witness: two sightings of one aircraft on the empty store give
one current row and two history rows. -/
theorem C8_history_accumulation_witness :
    countCur (applyMany dbEmpty [(fsA, 50), (fsA, 60)]) "abc123" = 1 ∧
    countHist (applyMany dbEmpty [(fsA, 50), (fsA, 60)]) "abc123" = 2 ∧
    atMostOne (applyMany dbEmpty [(fsA, 50), (fsA, 60)]) :=
  C8_history_accumulation dbEmpty "abc123" [(fsA, 50), (fsA, 60)]
    (by decide) (by simp) rfl rfl
    (by intro x; simp [countCur, dbEmpty])

/-- C9: upsert_current is idempotent on the current-state table: a
second successful call with the same CanonicalState leaves the
current-state table exactly as the first call left it, row for row and
field for field. -/
theorem C9_upsert_idempotent (db : DB) (fs : FlightState) (n1 n2 : Int)
    (db1 db2 : DB)
    (h1 : upsert_current db fs n1 true = Except.ok db1)
    (h2 : upsert_current db1 fs n2 true = Except.ok db2) :
    db2.current = db1.current := by
  have e1 : applyUpsert db fs n1 = db1 := by
    have h' : Except.ok (applyUpsert db fs n1) = Except.ok db1 := h1
    exact Except.ok.inj h'
  have e2 : applyUpsert db1 fs n2 = db2 := by
    have h' : Except.ok (applyUpsert db1 fs n2) = Except.ok db2 := h2
    exact Except.ok.inj h'
  subst e1
  subst e2
  exact upsertList_fst_idem db.current fs db.nextId _

/-- C9 witness at a concrete pair of calls. -/
theorem C9_upsert_idempotent_witness :
    (applyUpsert (applyUpsert dbEmpty fsA 50) fsA 60).current =
      (applyUpsert dbEmpty fsA 50).current :=
  C9_upsert_idempotent dbEmpty fsA 50 60 (applyUpsert dbEmpty fsA 50)
    (applyUpsert (applyUpsert dbEmpty fsA 50) fsA 60) rfl rfl

/-- C10: when upsert_current updates an existing current-state row, the
primary-key id and the flight_number and country_name columns of that
row are left unchanged, the icao24 key is untouched, and exactly the
ten mutable fields are overwritten from the new CanonicalState, even
when that CanonicalState carries flight_number or country_name
values. -/
theorem C10_update_frame (db : DB) (fs : FlightState) (now : Int)
    (r : CurrentRow)
    (h : db.current.find? (fun x => x.icao24 == fs.icao24) = some r) :
    ∃ pre post, db.current = pre ++ r :: post ∧
      (applyUpsert db fs now).current = pre ++ updateRow r fs :: post ∧
      (updateRow r fs).id = r.id ∧
      (updateRow r fs).icao24 = r.icao24 ∧
      (updateRow r fs).flight_number = r.flight_number ∧
      (updateRow r fs).country_name = r.country_name ∧
      (updateRow r fs).callsign = fs.callsign ∧
      (updateRow r fs).origin_country = fs.origin_country ∧
      (updateRow r fs).lat = fs.lat ∧
      (updateRow r fs).lon = fs.lon ∧
      (updateRow r fs).altitude = fs.altitude ∧
      (updateRow r fs).velocity = fs.velocity ∧
      (updateRow r fs).heading = fs.heading ∧
      (updateRow r fs).vertical_rate = fs.vertical_rate ∧
      (updateRow r fs).last_seen = fs.last_seen ∧
      (updateRow r fs).source = fs.source := by
  obtain ⟨pre, post, hsplit, hfst, -⟩ :=
    upsertList_update_frame db.current fs db.nextId r h
  exact ⟨pre, post, hsplit, hfst, rfl, rfl, rfl, rfl, rfl, rfl, rfl, rfl,
    rfl, rfl, rfl, rfl, rfl, rfl⟩

/-- C10 witness: an update by a CanonicalState carrying flight_number
and country_name values leaves those columns and the id unchanged. -/
theorem C10_update_frame_witness :
    ∃ pre post, dbA.current = pre ++ rowA :: post ∧
      (applyUpsert dbA fsB 70).current = pre ++ updateRow rowA fsB :: post ∧
      (updateRow rowA fsB).id = rowA.id ∧
      (updateRow rowA fsB).icao24 = rowA.icao24 ∧
      (updateRow rowA fsB).flight_number = rowA.flight_number ∧
      (updateRow rowA fsB).country_name = rowA.country_name ∧
      (updateRow rowA fsB).callsign = fsB.callsign ∧
      (updateRow rowA fsB).origin_country = fsB.origin_country ∧
      (updateRow rowA fsB).lat = fsB.lat ∧
      (updateRow rowA fsB).lon = fsB.lon ∧
      (updateRow rowA fsB).altitude = fsB.altitude ∧
      (updateRow rowA fsB).velocity = fsB.velocity ∧
      (updateRow rowA fsB).heading = fsB.heading ∧
      (updateRow rowA fsB).vertical_rate = fsB.vertical_rate ∧
      (updateRow rowA fsB).last_seen = fsB.last_seen ∧
      (updateRow rowA fsB).source = fsB.source :=
  C10_update_frame dbA fsB 70 rowA rfl

end FlightTracker
